import Mathlib

/-!
Shallow embedding of the trading-signal copier bot in `src/run.py`.

Python floats are modelled as exact rationals (the prices, balances and
risk factors handled by the program are small decimal literals on which
IEEE-754 arithmetic agrees with exact rational arithmetic at every step
the theorems below inspect).  Fallible Python operations are modelled
with `Except PyErr`: list indexing out of range is `indexError`, a failed
`float(...)` conversion or a failed `str.index` search is `valueError`,
`float - str` is `typeError`, and division by an integer zero is
`zeroDivisionError`; an unbound name raises `nameError`.
-/

/-- The Python exceptions that the code in `src/run.py` can raise. -/
inductive PyErr where
  | indexError
  | valueError
  | typeError
  | zeroDivisionError
  | nameError (n : String)
deriving DecidableEq, Repr

attribute [local semireducible] Rat.mul Rat.inv Rat.add Rat.sub Rat.ofScientific

instance {ε α : Type} [DecidableEq ε] [DecidableEq α] : DecidableEq (Except ε α) :=
  fun x y =>
    match x, y with
    | Except.ok a, Except.ok b =>
      if h : a = b then isTrue (by rw [h])
      else isFalse (by intro hh; cases hh; exact h rfl)
    | Except.ok _, Except.error _ => isFalse (by intro h; cases h)
    | Except.error _, Except.ok _ => isFalse (by intro h; cases h)
    | Except.error a, Except.error b =>
      if h : a = b then isTrue (by rw [h])
      else isFalse (by intro hh; cases hh; exact h rfl)

/-- ASCII lower-casing of one character, the fragment of Python
`str.lower` exercised by the signal texts handled here. -/
def asciiLower (c : Char) : Char :=
  if 'A' ≤ c ∧ c ≤ 'Z' then Char.ofNat (c.toNat + 32) else c

/-- ASCII upper-casing of one character (Python `str.upper` on the
symbol token of line 0). -/
def asciiUpper (c : Char) : Char :=
  if 'a' ≤ c ∧ c ≤ 'z' then Char.ofNat (c.toNat - 32) else c

/-- Model of Python `str.lower` (ASCII fragment). -/
def strLower (s : String) : String := String.mk (s.data.map asciiLower)

/-- Model of Python `str.upper` (ASCII fragment). -/
def strUpper (s : String) : String := String.mk (s.data.map asciiUpper)

/-- Whether the first character list is an initial segment of the second. -/
def listStarts : List Char → List Char → Bool
  | [], _ => true
  | _ :: _, [] => false
  | a :: as, b :: bs => a == b && listStarts as bs

/-- Whether the first character list occurs contiguously inside the second. -/
def listHasSub (n : List Char) : List Char → Bool
  | [] => n.isEmpty
  | c :: t => listStarts n (c :: t) || listHasSub n t

/-- Model of the Python substring test `needle in hay`. -/
def pyIn (needle hay : String) : Bool := listHasSub needle.data hay.data

/-- Model of Python `str.splitlines` restricted to `\n` line breaks
(the only break character occurring in the bot's Telegram messages):
a trailing newline does not produce a final empty line. -/
def splitLinesAux : List Char → List Char → List String
  | [], acc => if acc.isEmpty then [] else [String.mk acc.reverse]
  | c :: cs, acc =>
    if c = '\n' then String.mk acc.reverse :: splitLinesAux cs []
    else splitLinesAux cs (c :: acc)

/-- Model of Python `str.splitlines` (line 59). -/
def pySplitlines (s : String) : List String := splitLinesAux s.data []

/-- Model of Python `str.rstrip()` (line 60): drop trailing whitespace. -/
def pyRstrip (s : String) : String :=
  String.mk (s.data.reverse.dropWhile Char.isWhitespace).reverse

/-- Accumulator pass behind `pySplit`. -/
def wsSplitAux : List Char → List Char → List (List Char)
  | [], acc => if acc.isEmpty then [] else [acc.reverse]
  | c :: cs, acc =>
    if c.isWhitespace then
      if acc.isEmpty then wsSplitAux cs [] else acc.reverse :: wsSplitAux cs []
    else wsSplitAux cs (c :: acc)

/-- Model of Python `str.split()` with no argument: split on runs of
whitespace, dropping empty tokens. -/
def pySplit (s : String) : List String := (wsSplitAux s.data []).map String.mk

/-- Model of Python list indexing `l[-1]`: the last element, raising
IndexError on an empty list. -/
def pyLast {α : Type} (l : List α) : Except PyErr α :=
  match l.getLast? with
  | some x => Except.ok x
  | none => Except.error PyErr.indexError

/-- Model of Python list indexing `l[i]` for a non-negative index,
raising IndexError when out of range. -/
def pyGet {α : Type} (l : List α) (i : ℕ) : Except PyErr α :=
  match l[i]? with
  | some x => Except.ok x
  | none => Except.error PyErr.indexError

/-- Numeric value of a digit-character list. -/
def digitsToNat (l : List Char) : ℕ :=
  l.foldl (fun a c => a * 10 + (c.toNat - 48)) 0

/-- Model of Python `float(token)` restricted to finite decimal literals
(optional sign, integer and fractional digit groups, optional exponent);
`inf`, `nan`, underscores and hex floats do not occur in the signals
handled here.  `none` models a raised ValueError. -/
def pyFloat (s : String) : Option ℚ :=
  let l := (s.data.dropWhile Char.isWhitespace).reverse.dropWhile Char.isWhitespace |>.reverse
  let sgn : ℚ := if l.head? = some '-' then -1 else 1
  let l1 := if l.head? = some '-' ∨ l.head? = some '+' then l.tail else l
  let mant := l1.takeWhile (fun c => !(c == 'e' || c == 'E'))
  let expPart := l1.dropWhile (fun c => !(c == 'e' || c == 'E'))
  let ip := mant.takeWhile (fun c => !(c == '.'))
  let rest := mant.dropWhile (fun c => !(c == '.'))
  let fp := rest.tail
  if rest ≠ [] ∧ fp.contains '.' then none
  else if ip.isEmpty ∧ fp.isEmpty then none
  else if !(ip.all Char.isDigit) ∨ !(fp.all Char.isDigit) then none
  else
    let base : ℚ := sgn * ((digitsToNat ip : ℚ) + (digitsToNat fp : ℚ) / ((10 : ℚ) ^ fp.length))
    match expPart with
    | [] => some base
    | _ :: et =>
      let esgn : ℤ := if et.head? = some '-' then -1 else 1
      let ed := if et.head? = some '-' ∨ et.head? = some '+' then et.tail else et
      if ed.isEmpty ∨ !(ed.all Char.isDigit) then none
      else some (base * (10 : ℚ) ^ (esgn * (digitsToNat ed : ℤ)))

/-- Absolute value on ℚ, written so that it evaluates by kernel
reduction. -/
def ratAbs (q : ℚ) : ℚ := if q < 0 then -q else q

/-- Model of Python `round` on a rational: round half to even. -/
def pyRound (q : ℚ) : ℤ :=
  let f := Rat.floor q
  let r := q - (f : ℚ)
  if r < 1 / 2 then f
  else if 1 / 2 < r then f + 1
  else if f % 2 = 0 then f else f + 1

/-- The `Entry` field of a parsed trade: market orders keep the raw text
token of the entry line (line 89 of the source), limit and stop orders
convert it with `float` (line 91). -/
inductive EntryVal where
  | str (s : String)
  | num (q : ℚ)
deriving DecidableEq, Repr

/-- The trade dictionary built by `ParseSignal` (lines 62-103). -/
structure Trade where
  OrderType : String
  Symbol : String
  Entry : EntryVal
  StopLoss : ℚ
  TP : List ℚ
  RiskFactor : ℚ
deriving DecidableEq, Repr

/-- The quantities computed by `GetTradeInformation` (lines 106-141):
the pip multiplier, the stop loss in pips, the position size written
into `trade['PositionSize']`, and the take-profit pip list written into
`trade['TP']`. -/
structure SizeInfo where
  multiplier : ℚ
  stopLossPips : ℕ
  positionSize : ℚ
  takeProfitPips : List ℕ
deriving DecidableEq, Repr

/-- The allowed symbols list of lines 39-41 of the source, verbatim. -/
def SYMBOLS : List String :=
  ["BTCUSD", "AUDCHF", "AUDJPY", "AUDNZD", "AUDUSD", "CADCHF", "CADJPY",
   "CHFJPY", "EURAUD", "EURCAD", "EURCHF", "EURGBP", "EURJPY", "EURNZD",
   "EURUSD", "GBPAUD", "GBPCAD", "GBPCHF", "GBPJPY", "GBPNZD", "GBPUSD",
   "NOW", "NZDCAD", "NZDCHF", "NZDJPY", "NZDUSD", "USDCAD", "USDCHF",
   "USDJPY", "XAGUSD", "XAUUSD"]

/-- Number of decimal digits of a natural number (one digit for 0). -/
def natDigitCount (n : ℕ) : ℕ := (Nat.toDigits 10 n).length

/-- Model of `str(x).index('.')` for a numeric `x` (line 120): for the
price magnitudes the bot handles, CPython prints a float in positional
notation, where the decimal point sits right after the integer digits,
shifted by one for a leading minus sign. -/
def floatStrDotIdx (q : ℚ) : ℕ :=
  (if q < 0 then 1 else 0) + natDigitCount (Int.toNat (Rat.floor (ratAbs q)))

/-- Model of `str(trade['Entry']).index('.')` (line 120).  A market
order's entry is the raw token string, searched directly; `str.index`
raises ValueError when `'.'` does not occur. -/
def entryDotIdx : EntryVal → Except PyErr ℕ
  | EntryVal.str s =>
    match s.data.findIdx? (fun c => c == '.') with
    | some i => Except.ok i
    | none => Except.error PyErr.valueError
  | EntryVal.num q => Except.ok (floatStrDotIdx q)

/-- The pip multiplier chosen by lines 116-123 of the source. -/
def computeMultiplier (symbol : String) (entry : EntryVal) : Except PyErr ℚ :=
  if symbol = "XAUUSD" then Except.ok (1 / 10)
  else if symbol = "XAGUSD" then Except.ok (1 / 1000)
  else
    match entryDotIdx entry with
    | Except.error e => Except.error e
    | Except.ok i => Except.ok (if 2 ≤ i then 1 / 100 else 1 / 10000)

/-- Model of `trade['StopLoss'] - trade['Entry']` (line 126): subtracting
a string entry from a float raises TypeError. -/
def pySubEntry (sl : ℚ) : EntryVal → Except PyErr ℚ
  | EntryVal.num q => Except.ok (sl - q)
  | EntryVal.str _ => Except.error PyErr.typeError

/-- Embedding of `GetTradeInformation` (lines 106-141 of `src/run.py`):
pip multiplier from lines 116-123, `stopLossPips` from line 126,
`trade['PositionSize']` from line 129 (a division by a zero
`stopLossPips` raises ZeroDivisionError), and the take-profit pips of
lines 131-133, which are auto-set to the constant list `[50]`. -/
def GetTradeInformation (trade : Trade) (balance : ℚ) : Except PyErr SizeInfo :=
  match computeMultiplier trade.Symbol trade.Entry with
  | Except.error e => Except.error e
  | Except.ok multiplier =>
    match pySubEntry trade.StopLoss trade.Entry with
    | Except.error e => Except.error e
    | Except.ok diff =>
      if (pyRound (diff / multiplier)).natAbs = 0 then Except.error PyErr.zeroDivisionError
      else
        Except.ok
          { multiplier := multiplier
            stopLossPips := (pyRound (diff / multiplier)).natAbs
            positionSize :=
              ((Rat.floor (balance * trade.RiskFactor /
                  (((pyRound (diff / multiplier)).natAbs : ℕ) : ℚ) / 10 * 100) : ℤ) : ℚ) / 100
            takeProfitPips := [50] }

/-- The order-type keyword matching of lines 65-78 of the source: an
ordered chain of case-insensitive substring tests on line 0, the
two-word phrases checked before the one-word ones.  `none` is the
`return {}` of line 78. -/
def detectOrderType (line0 : String) : Option String :=
  let low := strLower line0
  if pyIn ("buy limit") low then some ("Buy Limit")
  else if pyIn ("sell limit") low then some ("Sell Limit")
  else if pyIn ("buy stop") low then some ("Buy Stop")
  else if pyIn ("sell stop") low then some ("Sell Stop")
  else if pyIn ("buy") low then some ("Buy")
  else if pyIn ("sell") low then some ("Sell")
  else none

/-- The expression `float((signal[i].split())[-1])` used for the stop
loss, the take profits, and a limit or stop order's entry (lines 91-98):
index the line, split it on whitespace, take the last token, convert. -/
def parseValue (lines : List String) (i : ℕ) : Except PyErr ℚ :=
  match pyGet lines i with
  | Except.error e => Except.error e
  | Except.ok line =>
    match pyLast (pySplit line) with
    | Except.error e => Except.error e
    | Except.ok tok =>
      match pyFloat tok with
      | some q => Except.ok q
      | none => Except.error PyErr.valueError

/-- Line 89 of the source: a market order's entry is the raw last token
of the entry line, kept as a string with no validation of its content. -/
def parseMarketEntry (lines : List String) : Except PyErr EntryVal :=
  match pyGet lines 1 with
  | Except.error e => Except.error e
  | Except.ok line1 =>
    match pyLast (pySplit line1) with
    | Except.error e => Except.error e
    | Except.ok tok => Except.ok (EntryVal.str tok)

/-- Lines 88-91 of the source: the entry field, raw token for the market
order types `Buy` and `Sell`, `float`-converted for limit and stop
types. -/
def parseEntry (lines : List String) (orderType : String) : Except PyErr EntryVal :=
  if orderType = "Buy" ∨ orderType = "Sell" then parseMarketEntry lines
  else
    match parseValue lines 1 with
    | Except.error e => Except.error e
    | Except.ok q => Except.ok (EntryVal.num q)

/-- Lines 94-98 of the source: the first take profit, plus a second one
when a fifth line exists. -/
def parseTPs (lines : List String) (tp1 : ℚ) : Except PyErr (List ℚ) :=
  if 4 < lines.length then
    match parseValue lines 4 with
    | Except.error e => Except.error e
    | Except.ok tp2 => Except.ok [tp1, tp2]
  else Except.ok [tp1]

/-- Lines 81-103 of `ParseSignal`, after the order type has been
determined: symbol extraction and validation, the entry field, stop
loss, and one or two take profits.  Returns the symbol, entry, stop
loss and take-profit list; `none` is the `return {}` for an unknown
symbol (line 85). -/
def parseRest (lines : List String) (orderType : String) :
    Except PyErr (Option (String × EntryVal × ℚ × List ℚ)) :=
  match pyGet lines 0 with
  | Except.error e => Except.error e
  | Except.ok line0 =>
    match pyLast (pySplit line0) with
    | Except.error e => Except.error e
    | Except.ok symTok =>
      if strUpper symTok ∈ SYMBOLS then
        match parseEntry lines orderType with
        | Except.error e => Except.error e
        | Except.ok entry =>
          match parseValue lines 2 with
          | Except.error e => Except.error e
          | Except.ok stopLoss =>
            match parseValue lines 3 with
            | Except.error e => Except.error e
            | Except.ok tp1 =>
              match parseTPs lines tp1 with
              | Except.error e => Except.error e
              | Except.ok tps => Except.ok (some (strUpper symTok, entry, stopLoss, tps))
      else Except.ok none

/-- Embedding of `ParseSignal` (lines 48-103 of `src/run.py`).  The
module-level configuration value `RISK_FACTOR` is passed as a parameter.
`Except.error` models an escaping Python exception; `Except.ok none`
models the `return {}` branches (invalid order type, unknown symbol);
`Except.ok (some t)` is a successfully built trade dictionary.
Line 98 of the source is missing a closing parenthesis; it is embedded
with its evident intent (append a second take profit). -/
def ParseSignal (RISK_FACTOR : ℚ) (signal : String) : Except PyErr (Option Trade) :=
  match pyGet ((pySplitlines signal).map pyRstrip) 0 with
  | Except.error e => Except.error e
  | Except.ok line0 =>
    match detectOrderType line0 with
    | none => Except.ok none
    | some orderType =>
      match parseRest ((pySplitlines signal).map pyRstrip) orderType with
      | Except.error e => Except.error e
      | Except.ok none => Except.ok none
      | Except.ok (some (symbol, entry, stopLoss, tps)) =>
        Except.ok (some
          { OrderType := orderType, Symbol := symbol, Entry := entry,
            StopLoss := stopLoss, TP := tps, RiskFactor := RISK_FACTOR })

example :
    ParseSignal (1 / 100) ("Buy Limit EURUSD\n1.2000\n1.1950\n1.2050") =
    Except.ok (some
      { OrderType := "Buy Limit", Symbol := "EURUSD", Entry := EntryVal.num (6 / 5),
        StopLoss := 239 / 200, TP := [241 / 200], RiskFactor := 1 / 100 }) := by decide

example :
    ParseSignal (1 / 100) ("Buy EURUSD\nNOW\n1.1950\n1.2050") =
    Except.ok (some
      { OrderType := "Buy", Symbol := "EURUSD", Entry := EntryVal.str ("NOW"),
        StopLoss := 239 / 200, TP := [241 / 200], RiskFactor := 1 / 100 }) := by decide

example : ParseSignal (1 / 100) ("Buy Limit EURUSD") = Except.error PyErr.indexError := by decide

/-- The names bound at module level in `src/run.py`: the imports of
lines 1-15 and the assignments and definitions of lines 18-103 and
106-350.  Neither `api` (referenced at line 296) nor `context`
(referenced at line 200) is among them. -/
def moduleGlobals : List String :=
  ["asyncio", "logging", "math", "os", "Literal", "MetaApi", "PrettyTable",
   "ParseMode", "Update", "CommandHandler", "Filters", "MessageHandler",
   "Updater", "ConversationHandler", "CallbackContext", "API_KEY",
   "ACCOUNT_ID", "TOKEN", "TELEGRAM_USER", "APP_URL", "PORT", "logger",
   "CALCULATE", "TRADE", "DECISION", "SYMBOLS", "RISK_FACTOR",
   "ParseSignal", "GetTradeInformation", "CreateTable", "ConnectMetaTrader",
   "start", "help_command", "calculate", "yes", "no", "error", "main"]

/-- Python name resolution for a bare name inside a function body: look
it up among the local names of the scope, then among the module globals;
an unbound name raises NameError. -/
def resolveName (locals : List String) (n : String) : Except PyErr Unit :=
  if n ∈ locals ∨ n ∈ moduleGlobals then Except.ok ()
  else Except.error (PyErr.nameError n)

/-- Conversation state `CALCULATE` of line 36 (`range(3)`): the state in
which the bot awaits a signal text. -/
def CALCULATE : Int := 0

/-- Conversation state `TRADE` of line 36. -/
def TRADE : Int := 1

/-- Conversation state `DECISION` of line 36: the state in which the bot
awaits `/yes` or `/no` on the pending trade. -/
def DECISION : Int := 2

/-- `ConversationHandler.END` of the python-telegram-bot library: the
sentinel returned by `yes` (line 310) and `no` (line 332), which
terminates the conversation. -/
def conversationEnd : Int := -1

/-- The externally observable effects of a handler run: a Telegram
reply, or an order-submission call to the broker.  Lines 284-310 of the
source contain no order-submission call of any kind. -/
inductive Effect where
  | reply
  | submitOrder
deriving DecidableEq, Repr

/-- Embedding of the `/yes` confirmation handler (lines 284-310 of
`src/run.py`), parameterized by the pending trade held in
`context.user_data['trade']` and by the balance the account would
report.  Its first statement (line 296) evaluates
`api.metatrader.get_account()`: the name `api` is neither a parameter
(`update`, `context`), nor assigned in the body before that point, nor a
module global, so CPython raises NameError there, before any reply or
any broker interaction.  The remaining branch embeds the unreachable
continuation of lines 297-310: recompute the trade information, reply
with the table and with the text `Trade has been executed on
MetaTrader.`, and return `ConversationHandler.END`. -/
def yes (pendingTrade : Trade) (balance : ℚ) : List Effect × Except PyErr Int :=
  match resolveName (["update", "context"]) ("api") with
  | Except.error e => ([], Except.error e)
  | Except.ok _ =>
    match GetTradeInformation pendingTrade balance with
    | Except.error e => ([], Except.error e)
    | Except.ok _ => ([Effect.reply, Effect.reply], Except.ok conversationEnd)

/-- The broker-facing calls that `ConnectMetaTrader` can make through
the MetaApi SDK.  `getAccountConnection` opens the broker session; no
call closing a session occurs anywhere in `src/run.py`. -/
inductive BrokerCall where
  | getAccount
  | getAccountConnection
  | sessionClose
  | submitOrder
deriving DecidableEq, Repr

/-- Embedding of `ConnectMetaTrader` (lines 179-207 of `src/run.py`) as
the sequence of broker calls it performs together with its outcome.
Lines 189-196 build the API handle, fetch the account and open the
account connection.  Line 200 then evaluates `context.user_data`
inside the `asyncio.gather` arguments: the local names of the scope are
`update`, `trade` and `auto_trade`, and `context` is not a module
global, so NameError is raised before any recursive call; lines 204-207
are unreachable, and no close of the opened connection exists on any
path (nor anywhere else in the file). -/
def ConnectMetaTrader (trade : Trade) : List BrokerCall × Except PyErr Int :=
  let calls := [BrokerCall.getAccount, BrokerCall.getAccountConnection]
  match resolveName (["update", "trade", "auto_trade", "api", "account", "balance", "connection"]) ("context") with
  | Except.error e => (calls, Except.error e)
  | Except.ok _ => (calls, Except.ok conversationEnd)

/-- The position-size formula stated by the spec, written from the
spec's words: `floor( (accountBalance × riskFraction / stopLossPips)
/ 10 × 100 ) / 100`.  Used to compare the code's computation against
the spec's formula. -/
def specPositionSize (balance riskFraction : ℚ) (stopLossPips : ℕ) : ℚ :=
  ((Rat.floor (balance * riskFraction / (stopLossPips : ℚ) / 10 * 100) : ℤ) : ℚ) / 100

/-- Batteries' `Rat.floor` agrees with Mathlib's floor on ℚ. -/
theorem ratFloor_eq_intFloor (q : ℚ) : (Rat.floor q : ℤ) = ⌊q⌋ :=
  (Rat.floor_def' q).trans Rat.floor_def.symm

/-- Flooring after scaling by 100 and scaling back never rounds up. -/
theorem floorDiv100_le (y : ℚ) : ((Rat.floor (y * 100) : ℤ) : ℚ) / 100 ≤ y := by
  have h1 : ((Rat.floor (y * 100) : ℤ) : ℚ) ≤ y * 100 := by
    rw [ratFloor_eq_intFloor]
    exact Int.floor_le _
  calc ((Rat.floor (y * 100) : ℤ) : ℚ) / 100 ≤ y * 100 / 100 :=
        (div_le_div_iff_of_pos_right (by norm_num)).mpr h1
    _ = y := by ring

/-- The first line as the parser sees it (split at newlines, trailing
whitespace stripped), or the empty string when the text has no lines. -/
def line0Of (text : String) : String :=
  ((pySplitlines text).map pyRstrip).headD ""

theorem pyGet_zero {α : Type} (l : List α) (x : α) (h : pyGet l 0 = Except.ok x)
    (d : α) : l.headD d = x := by
  cases l with
  | nil => simp [pyGet] at h
  | cons a t =>
    simp only [pyGet, List.getElem?_cons_zero] at h
    cases h
    rfl

theorem detect_buy_limit (l : String) (h : pyIn ("buy limit") (strLower l) = true) :
    detectOrderType l = some ("Buy Limit") := by
  simp [detectOrderType, h]

/-- Concrete trade used to witness the position-size bound: the spec's
own example signal. -/
def tradeC1 : Trade :=
  { OrderType := "Buy Limit", Symbol := "EURUSD", Entry := EntryVal.num (6 / 5),
    StopLoss := 239 / 200, TP := [241 / 200], RiskFactor := 1 / 100 }

/-- The result the sizer computes on `tradeC1` with balance 10000. -/
def infoC1 : SizeInfo :=
  { multiplier := 1 / 10000, stopLossPips := 50, positionSize := 1 / 5,
    takeProfitPips := [50] }

/-- C1: whenever the sizer succeeds, the position size it reports equals
the spec formula `floor(((balance × riskFraction / stopLossPips) / 10)
× 100) / 100` — floored to 2-decimal lot granularity — and therefore
never exceeds `balance × riskFraction / stopLossPips / 10`. -/
theorem positionSize_floored_never_exceeds_risk (t : Trade) (b : ℚ) (info : SizeInfo)
    (h : GetTradeInformation t b = Except.ok info) :
    info.positionSize = specPositionSize b t.RiskFactor info.stopLossPips ∧
    info.positionSize ≤ b * t.RiskFactor / (info.stopLossPips : ℚ) / 10 := by
  unfold GetTradeInformation at h
  split at h
  · exact absurd h (by simp)
  · split at h
    · exact absurd h (by simp)
    · split at h
      · exact absurd h (by simp)
      · simp only [Except.ok.injEq] at h
        subst h
        exact ⟨rfl, floorDiv100_le _⟩

/-- Witness for C1 at the spec's example trade and balance 10000. -/
theorem positionSize_floored_never_exceeds_risk_witness :
    GetTradeInformation tradeC1 10000 = Except.ok infoC1 ∧
    infoC1.positionSize = specPositionSize 10000 tradeC1.RiskFactor infoC1.stopLossPips ∧
    infoC1.positionSize ≤ 10000 * tradeC1.RiskFactor / (infoC1.stopLossPips : ℚ) / 10 :=
  ⟨by decide,
   (positionSize_floored_never_exceeds_risk tradeC1 10000 infoC1 (by decide)).1,
   (positionSize_floored_never_exceeds_risk tradeC1 10000 infoC1 (by decide)).2⟩

/-- Trade whose stop loss equals its entry at pip granularity. -/
def tradeC2 : Trade :=
  { OrderType := "Buy Limit", Symbol := "EURUSD", Entry := EntryVal.num (6 / 5),
    StopLoss := 6 / 5, TP := [241 / 200], RiskFactor := 1 / 100 }

/-- C2: on a zero stop-loss distance the sizer has no `ZeroRisk` guard;
line 129 divides by the zero `stopLossPips` and the run dies with
ZeroDivisionError. -/
theorem zero_stop_distance_divides_by_zero :
    GetTradeInformation tradeC2 10000 = Except.error PyErr.zeroDivisionError := by decide

/-- The trade parsed from the spec's example signal text. -/
def tradeC3 : Trade :=
  { OrderType := "Buy Limit", Symbol := "EURUSD", Entry := EntryVal.num (6 / 5),
    StopLoss := 239 / 200, TP := [241 / 200], RiskFactor := 1 / 100 }

/-- The result the sizer computes on `tradeC3` with balance 10000. -/
def infoC3 : SizeInfo :=
  { multiplier := 1 / 10000, stopLossPips := 50, positionSize := 1 / 5,
    takeProfitPips := [50] }

/-- C3 counterexample: at entry 1.2000, stop loss 1.1950, symbol EURUSD,
balance 10000 and risk fraction 0.01, the code resolves 50 pips and
0.2 lots — not the claimed 500 pips and 0.04 lots. -/
theorem example_sizing_claim_false :
    GetTradeInformation tradeC3 10000 = Except.ok infoC3 ∧
    infoC3.stopLossPips ≠ 500 ∧ infoC3.positionSize ≠ (1 / 25 : ℚ) := by decide

/-- C3 amended: on the spec's example input the pip size is 0.0001, the
stop-loss distance is 50 pips, and the position size is 0.2 lots; the
whole pipeline from the signal text agrees. -/
theorem example_sizing_actual :
    ParseSignal (1 / 100) ("Buy Limit EURUSD\n1.2000\n1.1950\n1.2050") =
      Except.ok (some tradeC3) ∧
    GetTradeInformation tradeC3 10000 = Except.ok infoC3 ∧
    infoC3.multiplier = (1 / 10000 : ℚ) ∧ infoC3.stopLossPips = 50 ∧
    infoC3.positionSize = (1 / 5 : ℚ) := by decide

/-- Trade with take profit 1.2100, 100 pips from entry 1.2000. -/
def tradeC4 : Trade :=
  { OrderType := "Buy Limit", Symbol := "EURUSD", Entry := EntryVal.num (6 / 5),
    StopLoss := 239 / 200, TP := [121 / 100], RiskFactor := 1 / 100 }

/-- The result the sizer computes on `tradeC4` with balance 10000. -/
def infoC4 : SizeInfo :=
  { multiplier := 1 / 10000, stopLossPips := 50, positionSize := 1 / 5,
    takeProfitPips := [50] }

/-- C4 counterexample: with a parsed take profit 100 pips away from the
entry, the sizer still reports `takeProfitPips = [50]`; the claimed
per-leg value `round(|takeProfit − entry| / pipSize)` would be 100. -/
theorem takeProfitPips_not_from_parsed_tp :
    GetTradeInformation tradeC4 10000 = Except.ok infoC4 ∧
    infoC4.takeProfitPips = [50] ∧
    (pyRound (ratAbs ((121 / 100 : ℚ) - 6 / 5) / infoC4.multiplier)).natAbs = 100 ∧
    (50 : ℕ) ≠ 100 := by decide

/-- C4 amended: the take-profit pip report is the constant list `[50]`
(lines 131-133 auto-set it), independent of the parsed take-profit
prices, which are discarded. -/
theorem takeProfitPips_always_fifty (t : Trade) (b : ℚ) (info : SizeInfo)
    (h : GetTradeInformation t b = Except.ok info) : info.takeProfitPips = [50] := by
  unfold GetTradeInformation at h
  split at h
  · exact absurd h (by simp)
  · split at h
    · exact absurd h (by simp)
    · split at h
      · exact absurd h (by simp)
      · simp only [Except.ok.injEq] at h
        subst h
        rfl

/-- Witness for the amended C4 at a concrete trade. -/
theorem takeProfitPips_always_fifty_witness : infoC4.takeProfitPips = [50] :=
  takeProfitPips_always_fifty tradeC4 10000 infoC4 (by decide)

/-- C5: the pip-size choice of lines 116-123 inspects `str(entry)` by
the character index of `'.'`.  For a market order the entry is the raw
token: the raw string `07.5` selects pip 0.01 although its numeric value
7.5 would select 0.0001, and a token without a dot (the normal market
keyword `NOW`) raises ValueError. -/
theorem pip_size_decided_by_raw_string_index :
    computeMultiplier ("EURUSD") (EntryVal.str ("07.5")) = Except.ok (1 / 100) ∧
    computeMultiplier ("EURUSD") (EntryVal.num (15 / 2)) = Except.ok (1 / 10000) ∧
    computeMultiplier ("EURUSD") (EntryVal.str ("NOW")) = Except.error PyErr.valueError := by
  decide

/-- C6: the parser is not total — a signal whose value lines are missing
escapes with IndexError (line 93 indexes `signal[2]` out of range), and
a malformed decimal escapes with ValueError, instead of a
`ParseError::BadField` value. -/
theorem parse_escapes_with_exception :
    ParseSignal (1 / 100) ("Buy Limit EURUSD") = Except.error PyErr.indexError ∧
    ParseSignal (1 / 100) ("Buy Limit EURUSD\nabc\n1.1950\n1.2050") =
      Except.error PyErr.valueError := by decide

/-- The trade parsed from the witness text of C7. -/
def tradeC7 : Trade :=
  { OrderType := "Buy Limit", Symbol := "EURUSD", Entry := EntryVal.num (6 / 5),
    StopLoss := 239 / 200, TP := [241 / 200], RiskFactor := 1 / 100 }

/-- C7: a first line containing the phrase `Buy Limit` (case-insensitively)
is always classified `Buy Limit`, never the generic `Buy` — the most
specific keyword phrase is tested first (lines 65-66). -/
theorem buy_limit_wins_over_buy (rf : ℚ) (text : String) (t : Trade)
    (hline : pyIn ("buy limit") (strLower (line0Of text)) = true)
    (hparse : ParseSignal rf text = Except.ok (some t)) :
    t.OrderType = "Buy Limit" ∧ t.OrderType ≠ "Buy" := by
  unfold ParseSignal at hparse
  split at hparse
  · exact absurd hparse (by simp)
  · rename_i line0 heq
    have hl : line0Of text = line0 := pyGet_zero _ _ heq ""
    have hd : detectOrderType line0 = some ("Buy Limit") :=
      detect_buy_limit line0 (by rw [← hl]; exact hline)
    rw [hd] at hparse
    split at hparse
    · exact absurd hparse (by simp)
    · rename_i ot hsome
      have hot : "Buy Limit" = ot := Option.some.inj hsome
      subst hot
      split at hparse
      · exact absurd hparse (by simp)
      · exact absurd hparse (by simp)
      · simp only [Except.ok.injEq, Option.some.injEq] at hparse
        subst hparse
        refine ⟨rfl, ?_⟩
        show ("Buy Limit" : String) ≠ "Buy"
        decide

/-- Witness for C7: a concrete limit-buy signal parses to order type
`Buy Limit`. -/
theorem buy_limit_wins_over_buy_witness :
    tradeC7.OrderType = "Buy Limit" ∧ tradeC7.OrderType ≠ "Buy" :=
  buy_limit_wins_over_buy (1 / 100) ("Buy Limit EURUSD\n1.2000\n1.1950\n1.2050") tradeC7
    (by decide) (by decide)

/-- C8: the `/yes` confirmation handler performs no order submission at
all — its first statement raises NameError on the unbound name `api`,
and even its unreachable remainder contains no submission call; it also
returns `ConversationHandler.END`, never the signal-awaiting state
`CALCULATE`. -/
theorem confirm_raises_nameerror_and_never_submits (t : Trade) (b : ℚ) :
    (yes t b).1.contains Effect.submitOrder = false ∧
    (yes t b).2 = Except.error (PyErr.nameError ("api")) ∧
    (yes t b).2 ≠ Except.ok CALCULATE := by
  refine ⟨rfl, rfl, ?_⟩
  intro hc
  rw [show (yes t b).2 = Except.error (PyErr.nameError ("api")) from rfl] at hc
  exact Except.noConfusion hc

/-- C9: an orchestration run opens the broker session
(`get_account_connection`) and then dies with NameError on the unbound
name `context`; no path ever issues a session close — the file contains
no close call at all. -/
theorem session_opened_never_closed (t : Trade) :
    (ConnectMetaTrader t).1.contains BrokerCall.getAccountConnection = true ∧
    (ConnectMetaTrader t).1.contains BrokerCall.sessionClose = false ∧
    (ConnectMetaTrader t).2 = Except.error (PyErr.nameError ("context")) :=
  ⟨rfl, rfl, rfl⟩

theorem parseMarketEntry_str (lines : List String) (ent : EntryVal)
    (h : parseMarketEntry lines = Except.ok ent) : ∃ s, ent = EntryVal.str s := by
  unfold parseMarketEntry at h
  split at h
  · exact Except.noConfusion h
  · split at h
    · exact Except.noConfusion h
    · rename_i tok heq
      exact ⟨tok, (Except.ok.inj h).symm⟩

theorem parseEntry_market (lines : List String) (ot : String) (ent : EntryVal)
    (hot : ot = "Buy" ∨ ot = "Sell") (h : parseEntry lines ot = Except.ok ent) :
    ∃ s, ent = EntryVal.str s := by
  unfold parseEntry at h
  rw [if_pos hot] at h
  exact parseMarketEntry_str lines ent h

theorem parseRest_entry (lines : List String) (ot sym : String) (ent : EntryVal)
    (sl : ℚ) (tps : List ℚ)
    (h : parseRest lines ot = Except.ok (some (sym, ent, sl, tps))) :
    parseEntry lines ot = Except.ok ent := by
  unfold parseRest at h
  split at h
  · exact Except.noConfusion h
  · split at h
    · exact Except.noConfusion h
    · split at h
      · split at h
        · exact Except.noConfusion h
        · rename_i entry heqE
          split at h
          · exact Except.noConfusion h
          · split at h
            · exact Except.noConfusion h
            · split at h
              · exact Except.noConfusion h
              · have h4 := Option.some.inj (Except.ok.inj h)
                have h2 : entry = ent := congrArg (fun p => p.2.1) h4
                rw [← h2]
                exact heqE
      · exact Option.noConfusion (Except.ok.inj h)

theorem parseRest_market (lines : List String) (ot sym : String) (ent : EntryVal)
    (sl : ℚ) (tps : List ℚ) (hot : ot = "Buy" ∨ ot = "Sell")
    (h : parseRest lines ot = Except.ok (some (sym, ent, sl, tps))) :
    ∃ s, ent = EntryVal.str s :=
  parseEntry_market lines ot ent hot (parseRest_entry lines ot sym ent sl tps h)

theorem sizer_fails_on_str (t : Trade) (b : ℚ) (s : String)
    (h : t.Entry = EntryVal.str s) :
    ∃ e, GetTradeInformation t b = Except.error e := by
  unfold GetTradeInformation
  rw [h]
  by_cases h1 : t.Symbol = "XAUUSD"
  · exact ⟨PyErr.typeError, by simp [computeMultiplier, h1, pySubEntry]⟩
  · by_cases h2 : t.Symbol = "XAGUSD"
    · exact ⟨PyErr.typeError, by simp [computeMultiplier, h1, h2, pySubEntry]⟩
    · cases hf : s.data.findIdx? (fun c => c == '.') with
      | none =>
        exact ⟨PyErr.valueError, by simp [computeMultiplier, h1, h2, entryDotIdx, hf]⟩
      | some i =>
        exact ⟨PyErr.typeError, by simp [computeMultiplier, h1, h2, entryDotIdx, hf, pySubEntry]⟩

/-- The trade parsed from the market signal `Buy EURUSD` with entry
token `NOW`. -/
def tradeC10 : Trade :=
  { OrderType := "Buy", Symbol := "EURUSD", Entry := EntryVal.str ("NOW"),
    StopLoss := 239 / 200, TP := [241 / 200], RiskFactor := 1 / 100 }

/-- C10 counterexample: for the ordinary market signal (entry token
`NOW`, symbol EURUSD) the sizer raises ValueError during the pip-size
string inspection of line 120 — it never reaches the claimed
`stopLoss − entry` subtraction of line 126, whose failure would be
TypeError. -/
theorem market_entry_fails_before_subtraction :
    ParseSignal (1 / 100) ("Buy EURUSD\nNOW\n1.1950\n1.2050") =
      Except.ok (some tradeC10) ∧
    GetTradeInformation tradeC10 10000 = Except.error PyErr.valueError ∧
    PyErr.valueError ≠ PyErr.typeError := by decide

/-- C10 amended: for every market-type intent the parser stores the
entry as the raw text token, and the sizer always raises — ValueError in
the pip-size string inspection, or TypeError at the subtraction — before
producing a position size, so a market-type intent is never sized. -/
theorem market_intent_never_sized (rf : ℚ) (text : String) (t : Trade) (b : ℚ)
    (hparse : ParseSignal rf text = Except.ok (some t))
    (hot : t.OrderType = "Buy" ∨ t.OrderType = "Sell") :
    (∃ s, t.Entry = EntryVal.str s) ∧ ∃ e, GetTradeInformation t b = Except.error e := by
  have hstr : ∃ s, t.Entry = EntryVal.str s := by
    unfold ParseSignal at hparse
    split at hparse
    · exact absurd hparse (by simp)
    · split at hparse
      · exact absurd hparse (by simp)
      · rename_i orderType hsome
        split at hparse
        · exact absurd hparse (by simp)
        · exact absurd hparse (by simp)
        · rename_i symbol entry stopLoss tps heqRest
          simp only [Except.ok.injEq, Option.some.injEq] at hparse
          subst hparse
          exact parseRest_market _ _ _ _ _ _ hot heqRest
  obtain ⟨s, hs⟩ := hstr
  exact ⟨⟨s, hs⟩, sizer_fails_on_str t b s hs⟩

/-- Witness for the amended C10 at the concrete market signal. -/
theorem market_intent_never_sized_witness :
    (∃ s, tradeC10.Entry = EntryVal.str s) ∧
    ∃ e, GetTradeInformation tradeC10 10000 = Except.error e :=
  market_intent_never_sized (1 / 100) ("Buy EURUSD\nNOW\n1.1950\n1.2050") tradeC10 10000
    (by decide) (Or.inl rfl)

